import Mathlib

/-!
Verification development for the cali-ai repository.

The repository is a small plant-disease detection service: a Vercel-style
API handler (`api/detect.js`, here `src/unnamed/part_002` after the
separator) receives an uploaded image, rate-limits the client, validates
the file, calls a species-verification model and then a disease model on
the Roboflow API, assembles a response payload, and deletes the temporary
upload on every exit path.  Two browser scripts (`src/unnamed/part_000`
and `src/unnamed/part_001`) render the returned predictions on a canvas.

This file is a shallow embedding of that code.  JavaScript numbers are
modelled as rationals, JavaScript `Map`/file-system state as association
lists, thrown errors as `Except` values, and `undefined`/missing JSON
fields as `Option`.  Character handling (`toLowerCase`, `includes`)
is modelled for ASCII strings, which covers every label the claims
mention.
-/

namespace CaliAI

/-! ### Small JavaScript-semantics helpers -/

/-- Does the first character list start with the second one?
Models the positional comparison underlying `String.prototype.includes`. -/
def charsStartWith : List Char → List Char → Bool
  | _, [] => true
  | [], _ :: _ => false
  | a :: as, b :: bs => a == b && charsStartWith as bs

/-- Does the first character list contain the second as a contiguous run? -/
def charsContain : List Char → List Char → Bool
  | [], sub => sub.isEmpty
  | a :: as, sub => charsStartWith (a :: as) sub || charsContain as sub

/-- Models `hay.includes(sub)` on JavaScript strings. -/
def strIncludes (hay sub : String) : Bool :=
  charsContain hay.data sub.data

/-- ASCII lower-casing of one character (every label in the code and in
the claims is ASCII, where this agrees with `toLowerCase`). -/
def asciiLower (c : Char) : Char :=
  if 65 ≤ c.toNat ∧ c.toNat ≤ 90 then Char.ofNat (c.toNat + 32) else c

/-- Models `s.toLowerCase()` on the ASCII strings this code handles. -/
def jsToLowerCase (s : String) : String :=
  ⟨s.data.map asciiLower⟩

/-- Models JavaScript `Math.round` on a finite number: round half away
from zero is `floor (q + 1/2)` for the non-negative confidences that
occur here (and for every value this development evaluates it on). -/
def jsRound (q : ℚ) : ℤ := ⌊q + 1/2⌋

/-- JavaScript truthiness of a possibly-undefined string (`undefined`
and the empty string are falsy). -/
def jsTruthyStr : Option String → Bool
  | some s => s != ""
  | none => false

/-! ### Rate limiter (`api/detect.js`, `checkRateLimit`) -/

/-- `RATE_LIMIT_WINDOW = 60 * 60 * 1000` milliseconds (one hour). -/
def RATE_LIMIT_WINDOW : ℕ := 60 * 60 * 1000

/-- `MAX_REQUESTS = 5` requests per window. -/
def MAX_REQUESTS : ℕ := 5

/-- One entry of `rateLimitMap`: `{ count, resetTime }`. -/
structure RateRecord where
  count : ℕ
  resetTime : ℕ
  deriving DecidableEq, Repr

/-- The in-memory `rateLimitMap`, keyed by client IP. -/
abbrev RateLimitMap := List (String × RateRecord)

/-- `rateLimitMap.get(ip)`. -/
def mapGet (m : RateLimitMap) (ip : String) : Option RateRecord :=
  (m.find? (fun p => p.1 == ip)).map Prod.snd

/-- `rateLimitMap.set(ip, r)` (also used to model in-place mutation of a
record, which is observationally a `set` of the updated record). -/
def mapSet (m : RateLimitMap) (ip : String) (r : RateRecord) : RateLimitMap :=
  (ip, r) :: m.filter (fun p => p.1 != ip)

/-- The value returned by `checkRateLimit`; `resetTime` is only present
on the rejection path. -/
structure RateLimitResult where
  allowed : Bool
  remaining : ℕ
  resetTime : Option ℕ := none
  deriving DecidableEq, Repr

/-- `checkRateLimit(ip)` from `api/detect.js`, with `Date.now()` and the
map passed explicitly.  Returns the result object and the updated map. -/
def checkRateLimit (now : ℕ) (m : RateLimitMap) (ip : String) :
    RateLimitResult × RateLimitMap :=
  match mapGet m ip with
  | none =>
      ({ allowed := true, remaining := MAX_REQUESTS - 1 },
       mapSet m ip ⟨1, now + RATE_LIMIT_WINDOW⟩)
  | some r =>
      if now > r.resetTime then
        ({ allowed := true, remaining := MAX_REQUESTS - 1 },
         mapSet m ip ⟨1, now + RATE_LIMIT_WINDOW⟩)
      else if r.count ≥ MAX_REQUESTS then
        ({ allowed := false, remaining := 0, resetTime := some r.resetTime }, m)
      else
        ({ allowed := true, remaining := MAX_REQUESTS - (r.count + 1) },
         mapSet m ip ⟨r.count + 1, r.resetTime⟩)

/-- A sequence of `checkRateLimit` calls for one client at the given
times, returning the list of `allowed` flags and the final map. -/
def rateSeq (ip : String) : List ℕ → RateLimitMap → List Bool × RateLimitMap
  | [], m => ([], m)
  | t :: ts, m =>
      let r := checkRateLimit t m ip
      let rest := rateSeq ip ts r.2
      (r.1.allowed :: rest.1, rest.2)

/-! ### Temporary files (`deleteImageFile`) -/

/-- The scratch storage: the list of paths that currently exist. -/
abbrev FileSystem := List String

/-- `fs.existsSync(p)`. -/
def fsContains (fs : FileSystem) (p : String) : Bool := fs.contains p

/-- `deleteImageFile(filePath)` from `api/detect.js`: guarded by
JavaScript truthiness of the path and `fs.existsSync`, and wrapped in
`try/catch`, so it never throws; returns the updated file system. -/
def deleteImageFile (fs : FileSystem) (filePath : String) : FileSystem :=
  if filePath != "" && fsContains fs filePath then
    fs.filter (fun q => q != filePath)
  else
    fs

/-! ### Request, configuration and upstream-response data -/

/-- `MAX_FILE_SIZE = 10 * 1024 * 1024` bytes. -/
def MAX_FILE_SIZE : ℕ := 10 * 1024 * 1024

/-- The server-side `ALLOWED_TYPES` list. -/
def ALLOWED_TYPES : List String :=
  ["image/jpeg", "image/jpg", "image/png", "image/webp"]

/-- The parsed upload (`files.image`), as formidable reports it. -/
structure UploadedFile where
  filepath : String
  mimetype : String
  size : ℕ
  deriving DecidableEq, Repr

/-- The environment configuration read by the handler.  Absent and empty
variables are both falsy in the `!MODEL1_URL || ...` check, so they are
kept as `Option String`. -/
structure EnvConfig where
  MODEL1_URL : Option String := none
  MODEL2_URL : Option String := none
  API_KEY : Option String := none
  RATE_LIMIT_PAUSED : Bool := false
  deriving DecidableEq, Repr

/-- `!MODEL1_URL || !MODEL2_URL || !API_KEY` succeeded, i.e. all three
are truthy. -/
def configOk (e : EnvConfig) : Bool :=
  jsTruthyStr e.MODEL1_URL && jsTruthyStr e.MODEL2_URL && jsTruthyStr e.API_KEY

/-- One raw prediction object in a Roboflow response body.  `cls` models
the JSON field `class` (a Lean keyword); `className` models the
alternative field probed by `model1Prediction.class || className`. -/
structure RPrediction where
  cls : String
  confidence : ℚ
  x : ℚ := 0
  y : ℚ := 0
  width : ℚ := 0
  height : ℚ := 0
  className : Option String := none
  deriving DecidableEq, Repr

/-- The `image` member of a Roboflow response (`{width, height}`). -/
structure ImageDims where
  width : ℚ
  height : ℚ
  deriving DecidableEq, Repr

/-- A Roboflow response body: an optional ranked `predictions` list, an
optional single `top` object, and optional reported image dimensions. -/
structure RoboflowResponse where
  predictions : Option (List RPrediction) := none
  top : Option RPrediction := none
  image : Option ImageDims := none
  deriving DecidableEq, Repr

/-- Stable insertion step for descending confidence: the inserted
element goes before the first element whose confidence does not exceed
it, so earlier elements win ties. -/
def insertDescStable (p : RPrediction) : List RPrediction → List RPrediction
  | [] => [p]
  | q :: qs =>
      if q.confidence ≤ p.confidence then p :: q :: qs
      else q :: insertDescStable p qs

/-- `predictions.sort((a, b) => b.confidence - a.confidence)`:
a stable sort by confidence descending (`Array.prototype.sort` is
stable, and a stable sort is determined by the comparator, so insertion
sort is observationally the same). -/
def sortByConfidenceDesc : List RPrediction → List RPrediction
  | [] => []
  | p :: ps => insertDescStable p (sortByConfidenceDesc ps)

/-! ### Response payload shapes -/

/-- The `boundingBox` object assembled for the primary disease result. -/
structure BoundingBox where
  x : ℚ
  y : ℚ
  width : ℚ
  height : ℚ
  deriving DecidableEq, Repr

/-- One element of the `allPredictions` array of the 200 payload: the
handler emits only `class` and a rounded percent `confidence`; the
`boundingBox` slot records whether geometry is present (the handler
emits none, i.e. the renderer will read `undefined` there). -/
structure PredOut where
  cls : String
  confidence : ℤ
  boundingBox : Option BoundingBox := none
  deriving DecidableEq, Repr

/-- The 200 response payload (`responseData`), with the fields the
claims are about.  `model1Class` is the result of
`model1Prediction.class || model1Prediction.className`, which can be
`undefined` in JavaScript, hence the `Option`. -/
structure ResponseData where
  model1Class : Option String
  model1Confidence : ℤ
  model2Class : String
  model2Confidence : ℤ
  model2BoundingBox : BoundingBox
  imageWidth : ℚ
  imageHeight : ℚ
  allPredictions : List PredOut
  deriving DecidableEq, Repr

/-- An HTTP response of the handler: status, the JSON `type` field,
the optional `detected`/`confidence` feedback fields of the gate
rejection, and the 200 payload when present. -/
structure ApiResponse where
  status : ℕ
  errType : Option String := none
  detected : Option String := none
  detectedConfidence : Option ℚ := none
  payload : Option ResponseData := none
  deriving DecidableEq, Repr

/-- Everything observable about one run of the handler body: the
response, the final file-system state, and whether the disease-model
endpoint (Model 2) was called. -/
structure PipelineResult where
  response : ApiResponse
  fs : FileSystem
  model2Called : Bool
  deriving DecidableEq, Repr

/-- The non-deterministic inputs of one request to the handler body:
the outcome of `parseForm` (`Except` for a thrown parse error, `none`
for a missing `image` field), the environment, and the outcomes of the
two `callRoboflowAPI` calls (`Except.error msg` models a thrown
`Error(msg)`). -/
structure PipelineInput where
  parseResult : Except String (Option UploadedFile)
  env : EnvConfig := {}
  model1 : Except String RoboflowResponse := .ok {}
  model2 : Except String RoboflowResponse := .ok {}

/-- The `catch (error)` block of the handler, mapping a thrown error
message to a response (file cleanup is applied at the call sites). -/
def catchResponse (msg : String) : ApiResponse :=
  if strIncludes msg "maxFileSize" then
    { status := 400, errType := some "validation_error" }
  else if strIncludes msg "Roboflow" then
    { status := 502, errType := some "service_error" }
  else
    { status := 500, errType := some "server_error" }

/-- `model1Prediction.class || model1Prediction.className` (the empty
string is falsy). -/
def model1ClassOf (p : RPrediction) : Option String :=
  if p.cls != "" then some p.cls else p.className

/-- `model1Class?.toLowerCase().includes('calamansi')`, coerced to a
boolean by the `if` (optional chaining on `undefined` gives a falsy
`undefined`). -/
def isCalamansiCheck : Option String → Bool
  | some s => strIncludes (jsToLowerCase s) "calamansi"
  | none => false

/-- `model2Response.image?.width || 640` (and the same for height):
absent member or zero dimension falls back to 640. -/
def dimOr640 (d : Option ℚ) : ℚ :=
  match d with
  | some w => if w != 0 then w else 640
  | none => 640

/-- Lines 455-525 of `api/detect.js`: the Model 2 (disease) call, the
no-prediction check, and payload assembly, given the `model1Class` and
`model1Confidence` values computed by the verification stage.  Every
exit path runs `deleteImageFile`; reaching this stage at all means the
disease-model endpoint was called (or, for a thrown call, attempted),
so `model2Called` is `true` throughout.  The fire-and-forget
`logDetection` call has no effect on the response and is not
modelled. -/
def classifyStage (fs : FileSystem) (path : String)
    (model1Class : Option String) (model1Confidence : ℤ)
    (m2 : Except String RoboflowResponse) : PipelineResult :=
  match m2 with
  | .error msg =>
      { response := catchResponse msg,
        fs := deleteImageFile fs path, model2Called := true }
  | .ok resp2 =>
      match (resp2.predictions.getD []).head? with
      | none =>
          { response := { status := 500, errType := some "model_error" },
            fs := deleteImageFile fs path, model2Called := true }
      | some p0 =>
          let payload : ResponseData :=
            { model1Class := model1Class,
              model1Confidence := model1Confidence,
              model2Class := p0.cls,
              model2Confidence := jsRound (p0.confidence * 100),
              model2BoundingBox :=
                { x := p0.x, y := p0.y, width := p0.width, height := p0.height },
              imageWidth := dimOr640 ((resp2.image).map ImageDims.width),
              imageHeight := dimOr640 ((resp2.image).map ImageDims.height),
              allPredictions :=
                (resp2.predictions.getD []).map (fun pr =>
                  { cls := pr.cls,
                    confidence := jsRound (pr.confidence * 100) }) }
          { response := { status := 200, payload := some payload },
            fs := deleteImageFile fs path, model2Called := true }

/-- Lines 412-453 of `api/detect.js`: sort the verification predictions
by confidence descending, gate on the best one (exact lower-cased label
comparison against `calamansi` and fractional confidence at least 0.5),
then the legacy normalization `predictions?.[0] || top` and the second
(containment, rounded-percent) gate, and finally the classification
stage.  The in-place `sort` of `model1Response.predictions` is modelled
by reading the sorted list wherever the source reads the array after
the sort. -/
def gateStage (fs : FileSystem) (path : String) (resp1 : RoboflowResponse)
    (m2 : Except String RoboflowResponse) : PipelineResult :=
  match (sortByConfidenceDesc (resp1.predictions.getD [])).head? with
  | none =>
      -- `!bestPrediction`: rejected with detected/confidence undefined
      { response := { status := 400, errType := some "validation_error" },
        fs := deleteImageFile fs path, model2Called := false }
  | some best =>
      if jsToLowerCase best.cls ≠ "calamansi" ∨ best.confidence < (1 : ℚ)/2 then
        { response :=
            { status := 400, errType := some "validation_error",
              detected := some best.cls,
              detectedConfidence := some best.confidence },
          fs := deleteImageFile fs path, model2Called := false }
      else
        -- `model1Response.predictions?.[0] || model1Response.top`;
        -- the array was sorted in place above
        let model1Prediction : Option RPrediction :=
          match resp1.predictions with
          | some _ =>
              match (sortByConfidenceDesc (resp1.predictions.getD [])).head? with
              | some p => some p
              | none => resp1.top
          | none => resp1.top
        match model1Prediction with
        | none =>
            { response := { status := 500, errType := some "model_error" },
              fs := deleteImageFile fs path, model2Called := false }
        | some m1 =>
            let model1Class := model1ClassOf m1
            let model1Confidence := jsRound (m1.confidence * 100)
            if isCalamansiCheck model1Class = false ∨ model1Confidence < 50 then
              { response :=
                  { status := 400, errType := some "validation_error",
                    detected := model1Class,
                    detectedConfidence := some (model1Confidence : ℚ) },
                fs := deleteImageFile fs path, model2Called := false }
            else
              classifyStage fs path model1Class model1Confidence m2

/-- The body of `handler` from `api/detect.js` downstream of the
rate-limit section (lines 356-525), together with the surrounding
`catch` block: parse result, file validation, configuration check,
Model 1 call, then the gate and classification stages. -/
def detectBody (fs : FileSystem) (inp : PipelineInput) : PipelineResult :=
  match inp.parseResult with
  | .error msg =>
      -- parseForm rejected before any file path was tracked
      { response := catchResponse msg, fs := fs, model2Called := false }
  | .ok none =>
      -- "No image file provided"
      { response := { status := 400, errType := some "validation_error" },
        fs := fs, model2Called := false }
  | .ok (some f) =>
      if f.mimetype ∉ ALLOWED_TYPES then
        { response := { status := 400, errType := some "validation_error" },
          fs := deleteImageFile fs f.filepath, model2Called := false }
      else if f.size > MAX_FILE_SIZE then
        { response := { status := 400, errType := some "validation_error" },
          fs := deleteImageFile fs f.filepath, model2Called := false }
      else if configOk inp.env = false then
        { response := { status := 500, errType := some "config_error" },
          fs := deleteImageFile fs f.filepath, model2Called := false }
      else
        match inp.model1 with
        | .error msg =>
            { response := catchResponse msg,
              fs := deleteImageFile fs f.filepath, model2Called := false }
        | .ok resp1 =>
            gateStage fs f.filepath resp1 inp.model2

/-! ### The full handler, including the rate-limit section -/

/-- Everything observable about one run of the full `handler`: the
response, the final file system and rate-limit map, and whether the
disease-model endpoint was called. -/
structure HandlerResult where
  response : ApiResponse
  fs : FileSystem
  rateMap : RateLimitMap
  model2Called : Bool
  deriving Repr

/-- The full `handler` of `api/detect.js` (lines 304-556).  After the
OPTIONS/POST method checks it models lines 337-353 faithfully: the
declaration `const rateLimit = checkRateLimit(clientIP)` sits inside the
`if (!RATE_LIMIT_PAUSED) { ... }` block, while the read
`if (!rateLimit.allowed)` on line 344 sits outside that block, so under
JavaScript block scoping the read always throws
`ReferenceError: rateLimit is not defined` — whether or not the pause
flag is set.  The outer `catch` turns the throw into a response (no
temp file exists yet, so no cleanup runs), and the body modelled by
`detectBody` is never reached. -/
def handler (method : String) (ip : String) (now : ℕ)
    (m : RateLimitMap) (fs : FileSystem) (inp : PipelineInput) : HandlerResult :=
  if method == "OPTIONS" then
    { response := { status := 200 }, fs := fs, rateMap := m, model2Called := false }
  else if method != "POST" then
    { response := { status := 405, errType := some "method_error" },
      fs := fs, rateMap := m, model2Called := false }
  else
    let m1 := if inp.env.RATE_LIMIT_PAUSED then m else (checkRateLimit now m ip).2
    { response := catchResponse "rateLimit is not defined",
      fs := fs, rateMap := m1, model2Called := false }

/-! ### Result renderer (`result.js`, `drawImageWithBoundingBoxes`) -/

/-- The cyclic color palette `boxColors`. -/
def boxColors : List String :=
  ["#00FF00", "#FF00FF", "#00FFFF", "#FFFF00", "#FF6600", "#FF0066"]

/-- One `ctx.strokeRect` call emitted for a prediction, with the color
chosen from the cyclic palette. -/
structure DrawRect where
  x : ℚ
  y : ℚ
  width : ℚ
  height : ℚ
  color : String
  deriving DecidableEq, Repr

/-- The per-prediction work of the `forEach` body in
`drawImageWithBoundingBoxes`: read `pred.boundingBox`, convert the
center-coordinate geometry to a scaled corner rectangle, and pick the
color by index.  Reading a member of an absent `boundingBox` is a
JavaScript `TypeError`, modelled by `Except.error`. -/
def strokeRectFor (scaleX scaleY : ℚ) (index : ℕ) (pred : PredOut) :
    Except String DrawRect :=
  match pred.boundingBox with
  | none => .error "TypeError: boundingBox is undefined"
  | some b =>
      .ok { x := (b.x - b.width / 2) * scaleX,
            y := (b.y - b.height / 2) * scaleY,
            width := b.width * scaleX,
            height := b.height * scaleY,
            color := (boxColors[index % boxColors.length]?).getD "#00FF00" }

/-- The indexed `forEach` loop of `drawImageWithBoundingBoxes`. -/
def drawBoxesAux (scaleX scaleY : ℚ) (index : ℕ) :
    List PredOut → List (Except String DrawRect)
  | [] => []
  | p :: ps =>
      strokeRectFor scaleX scaleY index p :: drawBoxesAux scaleX scaleY (index + 1) ps

/-- `drawImageWithBoundingBoxes` from `result.js`: computes
`scaleX = img.width / originalWidth` and `scaleY = img.height /
originalHeight` and emits one rectangle per prediction in list order. -/
def drawImageWithBoundingBoxes (imgWidth imgHeight originalWidth originalHeight : ℚ)
    (predictions : List PredOut) : List (Except String DrawRect) :=
  drawBoxesAux (imgWidth / originalWidth) (imgHeight / originalHeight) 0 predictions

/-! ### Concrete example inputs used by witnesses and counterexamples -/

/-- A scratch file system holding one uploaded temp file. -/
def exFs : FileSystem := ["/tmp/upload-1.png"]

/-- The parsed upload used by the concrete scenarios. -/
def exFile : UploadedFile :=
  { filepath := "/tmp/upload-1.png", mimetype := "image/png", size := 123456 }

/-- A fully configured environment. -/
def exEnv : EnvConfig :=
  { MODEL1_URL := some "https://detect.example/model1",
    MODEL2_URL := some "https://detect.example/model2",
    API_KEY := some "key" }

/-- The environment with rate limiting paused. -/
def exEnvPaused : EnvConfig := { exEnv with RATE_LIMIT_PAUSED := true }

/-- The disease-model response of the end-to-end scenario: black spot at
0.81 with geometry, then healthy calamansi at 0.10, image 640 by 640. -/
def exModel2Resp : RoboflowResponse :=
  { predictions := some
      [{ cls := "black spot", confidence := 81/100,
         x := 320, y := 320, width := 100, height := 100 },
       { cls := "healthy calamansi", confidence := 1/10,
         x := 100, y := 100, width := 40, height := 40 }],
    image := some { width := 640, height := 640 } }

/-- The passing end-to-end request: verifier label `calamansi` at 0.92. -/
def exInputPass : PipelineInput :=
  { parseResult := .ok (some exFile), env := exEnv,
    model1 := .ok { predictions := some [{ cls := "calamansi", confidence := 23/25 }] },
    model2 := .ok exModel2Resp }

/-- A request whose verifier label is `Calamansi Leaf` at 0.9: it
contains `calamansi` case-insensitively but is not exactly equal to
it. -/
def exInputLeaf : PipelineInput :=
  { parseResult := .ok (some exFile), env := exEnv,
    model1 := .ok { predictions := some [{ cls := "Calamansi Leaf", confidence := 9/10 }] },
    model2 := .ok exModel2Resp }

/-- A request whose verifier label is `tomato` at 0.95. -/
def exInputTomato : PipelineInput :=
  { parseResult := .ok (some exFile), env := exEnv,
    model1 := .ok { predictions := some [{ cls := "tomato", confidence := 19/20 }] },
    model2 := .ok exModel2Resp }

/-- A request whose verifier response carries an empty predictions list
and no top object: no predictions at all. -/
def exInputEmpty : PipelineInput :=
  { parseResult := .ok (some exFile), env := exEnv,
    model1 := .ok { predictions := some [] },
    model2 := .ok exModel2Resp }

/-- A request whose verifier response is a single `top` object (label
`calamansi` at 0.9) with no `predictions` list. -/
def exInputTop : PipelineInput :=
  { parseResult := .ok (some exFile), env := exEnv,
    model1 := .ok { top := some { cls := "calamansi", confidence := 9/10 } },
    model2 := .ok exModel2Resp }

/-- The passing request under the paused rate limiter. -/
def exInputPaused : PipelineInput := { exInputPass with env := exEnvPaused }

/-- A rendered prediction with geometry, for the renderer scenario. -/
def exRenderPred : PredOut :=
  { cls := "black spot", confidence := 81,
    boundingBox := some { x := 320, y := 320, width := 100, height := 100 } }

/-! ### Shared lemmas about the embedding -/

theorem sortByConfidenceDesc_nil : sortByConfidenceDesc [] = [] := rfl

theorem fsContains_filter_self (fs : FileSystem) (p : String) :
    fsContains (fs.filter (fun q => q != p)) p = false := by
  apply Bool.eq_false_iff.mpr
  intro hmem
  simp [fsContains, List.elem_iff, List.mem_filter] at hmem

theorem fsContains_deleteImageFile (fs : FileSystem) (p : String) (h : p ≠ "") :
    fsContains (deleteImageFile fs p) p = false := by
  unfold deleteImageFile
  split
  · exact fsContains_filter_self fs p
  · rename_i hcond
    rw [Bool.and_eq_true, not_and_or] at hcond
    rcases hcond with h1 | h2
    · exact absurd (bne_iff_ne.mpr h) h1
    · exact Bool.not_eq_true _ ▸ Bool.of_not_eq_true h2

theorem deleteImageFile_notMem (fs : FileSystem) (p : String)
    (h : fsContains fs p = false) : deleteImageFile fs p = fs := by
  unfold deleteImageFile
  rw [if_neg]
  simp [h]

theorem deleteImageFile_idem (fs : FileSystem) (p : String) :
    deleteImageFile (deleteImageFile fs p) p = deleteImageFile fs p := by
  by_cases h : p = ""
  · subst h
    simp [deleteImageFile]
  · exact deleteImageFile_notMem _ p (fsContains_deleteImageFile fs p h)

theorem le_jsRound_mul100 (c : ℚ) (h : (1 : ℚ)/2 ≤ c) :
    (50 : ℤ) ≤ jsRound (c * 100) := by
  unfold jsRound
  rw [Int.le_floor]
  push_cast
  linarith

theorem detectBody_run (fs : FileSystem) (inp : PipelineInput) (f : UploadedFile)
    (resp1 : RoboflowResponse)
    (hp : inp.parseResult = .ok (some f))
    (hmt : f.mimetype ∈ ALLOWED_TYPES)
    (hsz : f.size ≤ MAX_FILE_SIZE)
    (hcfg : configOk inp.env = true)
    (hm1 : inp.model1 = .ok resp1) :
    detectBody fs inp = gateStage fs f.filepath resp1 inp.model2 := by
  have hsz' : ¬ (f.size > MAX_FILE_SIZE) := by omega
  simp [detectBody, hp, hmt, hsz', hcfg, hm1]

theorem gateStage_none (fs : FileSystem) (path : String) (resp1 : RoboflowResponse)
    (m2 : Except String RoboflowResponse)
    (hb : (sortByConfidenceDesc (resp1.predictions.getD [])).head? = none) :
    gateStage fs path resp1 m2 =
      { response := { status := 400, errType := some "validation_error" },
        fs := deleteImageFile fs path, model2Called := false } := by
  simp [gateStage, hb]

theorem gateStage_reject (fs : FileSystem) (path : String) (resp1 : RoboflowResponse)
    (m2 : Except String RoboflowResponse) (best : RPrediction)
    (hb : (sortByConfidenceDesc (resp1.predictions.getD [])).head? = some best)
    (hfail : jsToLowerCase best.cls ≠ "calamansi" ∨ best.confidence < (1 : ℚ)/2) :
    gateStage fs path resp1 m2 =
      { response :=
          { status := 400, errType := some "validation_error",
            detected := some best.cls,
            detectedConfidence := some best.confidence },
        fs := deleteImageFile fs path, model2Called := false } := by
  unfold gateStage
  rw [hb]
  simp only [if_pos hfail]

theorem gateStage_pass (fs : FileSystem) (path : String) (resp1 : RoboflowResponse)
    (m2 : Except String RoboflowResponse) (best : RPrediction)
    (hb : (sortByConfidenceDesc (resp1.predictions.getD [])).head? = some best)
    (hlab : jsToLowerCase best.cls = "calamansi")
    (hconf : (1 : ℚ)/2 ≤ best.confidence) :
    gateStage fs path resp1 m2 =
      classifyStage fs path (some best.cls) (jsRound (best.confidence * 100)) m2 := by
  have hne : best.cls ≠ "" := by
    intro h
    rw [h] at hlab
    exact absurd hlab (by decide)
  obtain ⟨l, hpred⟩ : ∃ l, resp1.predictions = some l := by
    cases hpl : resp1.predictions with
    | none => rw [hpl] at hb; simp [sortByConfidenceDesc] at hb
    | some l => exact ⟨l, rfl⟩
  have hnfail : ¬ (jsToLowerCase best.cls ≠ "calamansi" ∨ best.confidence < (1 : ℚ)/2) := by
    push_neg
    exact ⟨hlab, hconf⟩
  have hclass : model1ClassOf best = some best.cls := by
    simp [model1ClassOf, hne]
  have hcheck : isCalamansiCheck (model1ClassOf best) = true := by
    rw [hclass]
    simp only [isCalamansiCheck, hlab]
    decide
  have hround := le_jsRound_mul100 best.confidence hconf
  have hnfail2 :
      ¬ (isCalamansiCheck (model1ClassOf best) = false ∨
          jsRound (best.confidence * 100) < 50) := by
    push_neg
    exact ⟨by simp [hcheck], by omega⟩
  rw [hpred] at hb
  simp only [Option.getD_some] at hb
  unfold gateStage
  rw [hpred]
  simp only [Option.getD_some]
  rw [hb]
  simp only [if_neg hnfail]
  rw [hclass] at hnfail2
  simp only [hclass, if_neg hnfail2]

theorem classifyStage_model2Called (fs : FileSystem) (path : String)
    (mc : Option String) (mconf : ℤ) (m2 : Except String RoboflowResponse) :
    (classifyStage fs path mc mconf m2).model2Called = true := by
  cases m2 with
  | error msg => rfl
  | ok resp2 =>
      cases h : (resp2.predictions.getD []).head? with
      | none => simp [classifyStage, h]
      | some p0 => simp [classifyStage, h]

theorem classifyStage_fs (fs : FileSystem) (path : String)
    (mc : Option String) (mconf : ℤ) (m2 : Except String RoboflowResponse) :
    (classifyStage fs path mc mconf m2).fs = deleteImageFile fs path := by
  cases m2 with
  | error msg => rfl
  | ok resp2 =>
      cases h : (resp2.predictions.getD []).head? with
      | none => simp [classifyStage, h]
      | some p0 => simp [classifyStage, h]

theorem classifyStage_ok (fs : FileSystem) (path : String)
    (mc : Option String) (mconf : ℤ) (resp2 : RoboflowResponse)
    (p0 : RPrediction) (ps : List RPrediction)
    (h : resp2.predictions = some (p0 :: ps)) :
    classifyStage fs path mc mconf (.ok resp2) =
      { response :=
          { status := 200,
            payload := some
              { model1Class := mc,
                model1Confidence := mconf,
                model2Class := p0.cls,
                model2Confidence := jsRound (p0.confidence * 100),
                model2BoundingBox :=
                  { x := p0.x, y := p0.y, width := p0.width, height := p0.height },
                imageWidth := dimOr640 ((resp2.image).map ImageDims.width),
                imageHeight := dimOr640 ((resp2.image).map ImageDims.height),
                allPredictions :=
                  (p0 :: ps).map (fun pr =>
                    { cls := pr.cls,
                      confidence := jsRound (pr.confidence * 100) }) } },
        fs := deleteImageFile fs path, model2Called := true } := by
  simp [classifyStage, h]

theorem gateStage_fs (fs : FileSystem) (path : String) (resp1 : RoboflowResponse)
    (m2 : Except String RoboflowResponse) :
    (gateStage fs path resp1 m2).fs = deleteImageFile fs path := by
  simp only [gateStage]
  repeat' split
  all_goals first
    | rfl
    | exact classifyStage_fs ..

theorem detectBody_fs (fs : FileSystem) (inp : PipelineInput) (f : UploadedFile)
    (hp : inp.parseResult = .ok (some f)) :
    (detectBody fs inp).fs = deleteImageFile fs f.filepath := by
  simp only [detectBody, hp]
  repeat' split
  all_goals first
    | rfl
    | exact gateStage_fs ..

theorem mapGet_mapSet_self (m : RateLimitMap) (ip : String) (r : RateRecord) :
    mapGet (mapSet m ip r) ip = some r := by
  simp [mapGet, mapSet, List.find?]

theorem rateSeq_saturated (ip : String) (ts : List ℕ) (m : RateLimitMap)
    (c reset : ℕ)
    (hm : mapGet m ip = some ⟨c, reset⟩)
    (hc : 1 ≤ c)
    (ht : ∀ t ∈ ts, t ≤ reset) :
    (rateSeq ip ts m).1 =
      (List.range ts.length).map (fun i => decide (c + i < MAX_REQUESTS)) := by
  induction ts generalizing m c with
  | nil => simp [rateSeq]
  | cons t ts ih =>
      have hle : t ≤ reset := ht t (by simp)
      have hnup : ¬ (t > reset) := by omega
      by_cases hcnt : c ≥ MAX_REQUESTS
      · have hstep : checkRateLimit t m ip =
            ({ allowed := false, remaining := 0, resetTime := some reset }, m) := by
          simp [checkRateLimit, hm, hnup, hcnt]
        simp only [rateSeq, hstep]
        rw [ih m c hm hc (fun u hu => ht u (by simp [hu]))]
        rw [List.length_cons, List.range_succ_eq_map, List.map_cons, List.map_map]
        congr 1
        · rw [eq_comm, decide_eq_false_iff_not]
          omega
        · apply List.map_congr_left
          intro i _
          simp only [Function.comp_apply]
          rw [decide_eq_decide]
          omega
      · have hstep : checkRateLimit t m ip =
            ({ allowed := true, remaining := MAX_REQUESTS - (c + 1) },
             mapSet m ip ⟨c + 1, reset⟩) := by
          simp [checkRateLimit, hm, hnup, hcnt]
        simp only [rateSeq, hstep]
        rw [ih (mapSet m ip ⟨c + 1, reset⟩) (c + 1) (mapGet_mapSet_self ..)
          (by omega) (fun u hu => ht u (by simp [hu]))]
        rw [List.length_cons, List.range_succ_eq_map, List.map_cons, List.map_map]
        congr 1
        · rw [eq_comm, decide_eq_true_eq]
          omega
        · apply List.map_congr_left
          intro i _
          simp only [Function.comp_apply]
          rw [decide_eq_decide]
          omega

theorem rateSeq_window (ip : String) (t₀ : ℕ) (rest : List ℕ)
    (hrest : ∀ t ∈ rest, t ≤ t₀ + RATE_LIMIT_WINDOW) :
    (rateSeq ip (t₀ :: rest) []).1 =
      (List.range (rest.length + 1)).map (fun i => decide (i < MAX_REQUESTS)) := by
  have hstep : checkRateLimit t₀ [] ip =
      ({ allowed := true, remaining := MAX_REQUESTS - 1 },
       mapSet [] ip ⟨1, t₀ + RATE_LIMIT_WINDOW⟩) := by
    simp [checkRateLimit, mapGet]
  simp only [rateSeq, hstep]
  rw [rateSeq_saturated ip rest _ 1 (t₀ + RATE_LIMIT_WINDOW)
    (mapGet_mapSet_self ..) le_rfl hrest]
  rw [List.range_succ_eq_map, List.map_cons, List.map_map]
  congr 1
  apply List.map_congr_left
  intro i _
  simp only [Function.comp_apply]
  rw [decide_eq_decide]
  omega

theorem drawBoxesAux_getElem (sx sy : ℚ) (l : List PredOut) :
    ∀ (k i : ℕ), (drawBoxesAux sx sy k l)[i]? =
      (l[i]?).map (fun p => strokeRectFor sx sy (k + i) p) := by
  induction l with
  | nil => intro k i; simp [drawBoxesAux]
  | cons p ps ih =>
      intro k i
      cases i with
      | zero => simp [drawBoxesAux]
      | succ n =>
          have hidx : k + 1 + n = k + (n + 1) := by omega
          simp only [drawBoxesAux, List.getElem?_cons_succ]
          rw [ih (k + 1) n, hidx]

/-! ### Claim theorems -/

/-- C1, counterexample: the verification response whose best prediction
is labelled `Calamansi Leaf` at confidence 0.9 satisfies the claimed
gate (case-insensitive containment of `calamansi`, confidence at least
0.5) yet the handler body rejects the request with a 400 validation
error and never proceeds, because the gate on line 416 compares the
lower-cased label for exact equality with `calamansi`. -/
theorem C1_containment_label_rejected_cex :
    strIncludes (jsToLowerCase "Calamansi Leaf") "calamansi" = true
  ∧ (1 : ℚ)/2 ≤ 9/10
  ∧ (detectBody exFs exInputLeaf).model2Called = false
  ∧ (detectBody exFs exInputLeaf).response.status = 400
  ∧ (detectBody exFs exInputLeaf).response.errType = some "validation_error" := by
  have h1 : detectBody exFs exInputLeaf =
      gateStage exFs exFile.filepath
        { predictions := some [{ cls := "Calamansi Leaf", confidence := 9/10 }] }
        exInputLeaf.model2 :=
    detectBody_run exFs exInputLeaf exFile _ rfl (by decide) (by decide) (by decide) rfl
  have h2 := gateStage_reject exFs exFile.filepath
      { predictions := some [{ cls := "Calamansi Leaf", confidence := 9/10 }] }
      exInputLeaf.model2 { cls := "Calamansi Leaf", confidence := 9/10 }
      rfl (Or.inl (by decide))
  rw [h1, h2]
  exact ⟨by decide, by norm_num, rfl, rfl, rfl⟩

/-- C1 (amended): for every request that reaches the verification
stage, the selected top prediction passes the gate if and only if its
lower-cased label is exactly `calamansi` (not mere containment) and its
fractional confidence, compared before any rounding, is at least 0.5;
otherwise the handler body returns a 400 validation error reporting the
detected label and its fractional confidence. -/
theorem C1_verification_gate_exact_match (fs : FileSystem) (inp : PipelineInput)
    (f : UploadedFile) (resp1 : RoboflowResponse) (best : RPrediction)
    (hp : inp.parseResult = .ok (some f))
    (hmt : f.mimetype ∈ ALLOWED_TYPES)
    (hsz : f.size ≤ MAX_FILE_SIZE)
    (hcfg : configOk inp.env = true)
    (hm1 : inp.model1 = .ok resp1)
    (hb : (sortByConfidenceDesc (resp1.predictions.getD [])).head? = some best) :
    ((detectBody fs inp).model2Called = true ↔
      (jsToLowerCase best.cls = "calamansi" ∧ (1 : ℚ)/2 ≤ best.confidence))
  ∧ (¬ (jsToLowerCase best.cls = "calamansi" ∧ (1 : ℚ)/2 ≤ best.confidence) →
      (detectBody fs inp).response =
        { status := 400, errType := some "validation_error",
          detected := some best.cls,
          detectedConfidence := some best.confidence }) := by
  rw [detectBody_run fs inp f resp1 hp hmt hsz hcfg hm1]
  by_cases hcond : jsToLowerCase best.cls = "calamansi" ∧ (1 : ℚ)/2 ≤ best.confidence
  · rw [gateStage_pass _ _ _ _ _ hb hcond.1 hcond.2]
    exact ⟨⟨fun _ => hcond, fun _ => classifyStage_model2Called ..⟩,
      fun hn => absurd hcond hn⟩
  · have hfail : jsToLowerCase best.cls ≠ "calamansi" ∨ best.confidence < (1 : ℚ)/2 := by
      rcases not_and_or.mp hcond with h | h
      · exact Or.inl h
      · exact Or.inr (not_le.mp h)
    rw [gateStage_reject _ _ _ _ _ hb hfail]
    exact ⟨⟨fun h => Bool.noConfusion h, fun h => absurd h hcond⟩, fun _ => rfl⟩

/-- C1 witness: the exact label `calamansi` at confidence 0.92 passes
the gate and the disease model is called. -/
theorem C1_verification_gate_exact_match_w :
    (detectBody exFs exInputPass).model2Called = true := by
  have h := C1_verification_gate_exact_match exFs exInputPass exFile
    { predictions := some [{ cls := "calamansi", confidence := 23/25 }] }
    { cls := "calamansi", confidence := 23/25 }
    rfl (by decide) (by decide) (by decide) rfl rfl
  exact h.1.mpr ⟨by decide, by norm_num⟩

/-- C2: whenever the parsed upload produced a file, the handler body
leaves the file system without that file on every exit path, and
`deleteImageFile` is idempotent (a second invocation on the same path
is a no-op; it never throws, being total by construction). -/
theorem C2_temp_file_cleanup (fs : FileSystem) (inp : PipelineInput)
    (f : UploadedFile)
    (hp : inp.parseResult = .ok (some f)) (hne : f.filepath ≠ "") :
    fsContains (detectBody fs inp).fs f.filepath = false
  ∧ (∀ (fs' : FileSystem) (p : String),
      deleteImageFile (deleteImageFile fs' p) p = deleteImageFile fs' p) := by
  refine ⟨?_, deleteImageFile_idem⟩
  rw [detectBody_fs fs inp f hp]
  exact fsContains_deleteImageFile fs f.filepath hne

/-- C2 witness: the successful end-to-end request leaves no temp file. -/
theorem C2_temp_file_cleanup_w :
    fsContains (detectBody exFs exInputPass).fs "/tmp/upload-1.png" = false
  ∧ (∀ (fs' : FileSystem) (p : String),
      deleteImageFile (deleteImageFile fs' p) p = deleteImageFile fs' p) :=
  C2_temp_file_cleanup exFs exInputPass exFile rfl (by decide)

/-- C3, counterexample: a verification response with an empty
predictions list produces a 400 validation error, not the claimed 500
model error (the `Model 1 returned no predictions` branch on lines
431-438 is preempted by the best-prediction gate). -/
theorem C3_empty_predictions_cex :
    (detectBody exFs exInputEmpty).response.status = 400
  ∧ (detectBody exFs exInputEmpty).response.errType = some "validation_error"
  ∧ (detectBody exFs exInputEmpty).response.status ≠ 500
  ∧ (detectBody exFs exInputEmpty).response.errType ≠ some "model_error" := by
  have h1 : detectBody exFs exInputEmpty =
      gateStage exFs exFile.filepath { predictions := some [] }
        exInputEmpty.model2 :=
    detectBody_run exFs exInputEmpty exFile _ rfl (by decide) (by decide) (by decide) rfl
  rw [h1, gateStage_none exFs exFile.filepath { predictions := some [] }
    exInputEmpty.model2 rfl]
  exact ⟨rfl, rfl, by decide, by decide⟩

/-- C3 (amended): when the verification response contains no
predictions, the handler body terminates with a 400 validation error
(with no detected label) and never calls the disease model; the
500 model error branch for the verification stage is unreachable. -/
theorem C3_empty_predictions_validation_error (fs : FileSystem)
    (inp : PipelineInput) (f : UploadedFile) (resp1 : RoboflowResponse)
    (hp : inp.parseResult = .ok (some f))
    (hmt : f.mimetype ∈ ALLOWED_TYPES)
    (hsz : f.size ≤ MAX_FILE_SIZE)
    (hcfg : configOk inp.env = true)
    (hm1 : inp.model1 = .ok resp1)
    (hempty : resp1.predictions.getD [] = []) :
    (detectBody fs inp).response.status = 400
  ∧ (detectBody fs inp).response.errType = some "validation_error"
  ∧ (detectBody fs inp).response.detected = none
  ∧ (detectBody fs inp).model2Called = false := by
  rw [detectBody_run fs inp f resp1 hp hmt hsz hcfg hm1]
  have hb : (sortByConfidenceDesc (resp1.predictions.getD [])).head? = none := by
    rw [hempty]; rfl
  rw [gateStage_none _ _ _ _ hb]
  exact ⟨rfl, rfl, rfl, rfl⟩

/-- C3 witness: the empty-predictions scenario evaluated concretely. -/
theorem C3_empty_predictions_validation_error_w :
    (detectBody exFs exInputEmpty).response.status = 400
  ∧ (detectBody exFs exInputEmpty).response.errType = some "validation_error"
  ∧ (detectBody exFs exInputEmpty).response.detected = none
  ∧ (detectBody exFs exInputEmpty).model2Called = false :=
  C3_empty_predictions_validation_error exFs exInputEmpty exFile _
    rfl (by decide) (by decide) (by decide) rfl rfl

/-- C4: with the pause flag set, a POST request does not bypass rate
limiting and proceed to validation and inference; instead the read of
`rateLimit.allowed` outside its declaring block throws a
ReferenceError, which the catch converts into a 500 server error.  The
rate-limit map is indeed left untouched and no 429 is produced, but the
request is never processed. -/
theorem C4_rate_limit_pause_crashes (ip : String) (now : ℕ) (m : RateLimitMap)
    (fs : FileSystem) (inp : PipelineInput)
    (hflag : inp.env.RATE_LIMIT_PAUSED = true) :
    (handler "POST" ip now m fs inp).response =
      { status := 500, errType := some "server_error" }
  ∧ (handler "POST" ip now m fs inp).rateMap = m
  ∧ (handler "POST" ip now m fs inp).model2Called = false
  ∧ (handler "POST" ip now m fs inp).fs = fs := by
  have hcatch : catchResponse "rateLimit is not defined" =
      { status := 500, errType := some "server_error" } := by decide
  simp [handler, hflag, hcatch]

/-- C4 witness: the paused-flag crash at a concrete request. -/
theorem C4_rate_limit_pause_crashes_w :
    exInputPaused.env.RATE_LIMIT_PAUSED = true
  ∧ (handler "POST" "203.0.113.7" 0 [] exFs exInputPaused).response =
      { status := 500, errType := some "server_error" } :=
  ⟨rfl, (C4_rate_limit_pause_crashes "203.0.113.7" 0 [] exFs exInputPaused rfl).1⟩

/-- C5: the rate limiter contract.  Quota is 5 per one-hour window; a
call with no record or with `now` strictly past the reset time installs
a fresh record `count = 1, resetTime = now + window` and returns
allowed with remaining 4; a call within the window at quota returns
not-allowed, remaining 0 and the record reset time without mutating the
map; any other call within the window increments the count and returns
allowed with remaining `quota - count`; and starting from no record the
Nth call within one window is allowed iff N is at most 5. -/
theorem C5_rate_limiter_contract :
    (MAX_REQUESTS = 5 ∧ RATE_LIMIT_WINDOW = 60 * 60 * 1000)
  ∧ (∀ (now : ℕ) (m : RateLimitMap) (ip : String), mapGet m ip = none →
      (checkRateLimit now m ip).1 = { allowed := true, remaining := MAX_REQUESTS - 1 } ∧
      mapGet (checkRateLimit now m ip).2 ip = some ⟨1, now + RATE_LIMIT_WINDOW⟩)
  ∧ (∀ (now : ℕ) (m : RateLimitMap) (ip : String) (r : RateRecord),
      mapGet m ip = some r → r.resetTime < now →
      (checkRateLimit now m ip).1 = { allowed := true, remaining := MAX_REQUESTS - 1 } ∧
      mapGet (checkRateLimit now m ip).2 ip = some ⟨1, now + RATE_LIMIT_WINDOW⟩)
  ∧ (∀ (now : ℕ) (m : RateLimitMap) (ip : String) (r : RateRecord),
      mapGet m ip = some r → now ≤ r.resetTime → MAX_REQUESTS ≤ r.count →
      (checkRateLimit now m ip).1 =
        { allowed := false, remaining := 0, resetTime := some r.resetTime } ∧
      (checkRateLimit now m ip).2 = m)
  ∧ (∀ (now : ℕ) (m : RateLimitMap) (ip : String) (r : RateRecord),
      mapGet m ip = some r → now ≤ r.resetTime → r.count < MAX_REQUESTS →
      (checkRateLimit now m ip).1 =
        { allowed := true, remaining := MAX_REQUESTS - (r.count + 1) } ∧
      mapGet (checkRateLimit now m ip).2 ip = some ⟨r.count + 1, r.resetTime⟩)
  ∧ (∀ (ip : String) (t₀ : ℕ) (rest : List ℕ),
      (∀ t ∈ rest, t ≤ t₀ + RATE_LIMIT_WINDOW) →
      ∀ n : ℕ, n < rest.length + 1 →
        (rateSeq ip (t₀ :: rest) []).1[n]? =
          some (decide (n + 1 ≤ MAX_REQUESTS))) := by
  refine ⟨⟨rfl, rfl⟩, ?_, ?_, ?_, ?_, ?_⟩
  · intro now m ip h
    have hstep : checkRateLimit now m ip =
        ({ allowed := true, remaining := MAX_REQUESTS - 1 },
         mapSet m ip ⟨1, now + RATE_LIMIT_WINDOW⟩) := by
      simp [checkRateLimit, h]
    rw [hstep]
    exact ⟨rfl, mapGet_mapSet_self ..⟩
  · intro now m ip r h hlt
    have hstep : checkRateLimit now m ip =
        ({ allowed := true, remaining := MAX_REQUESTS - 1 },
         mapSet m ip ⟨1, now + RATE_LIMIT_WINDOW⟩) := by
      simp [checkRateLimit, h, hlt]
    rw [hstep]
    exact ⟨rfl, mapGet_mapSet_self ..⟩
  · intro now m ip r h hle hcount
    have hnow : ¬ (now > r.resetTime) := by omega
    have hstep : checkRateLimit now m ip =
        ({ allowed := false, remaining := 0, resetTime := some r.resetTime }, m) := by
      simp [checkRateLimit, h, hnow, hcount]
    rw [hstep]
    exact ⟨rfl, rfl⟩
  · intro now m ip r h hle hcount
    have hnow : ¬ (now > r.resetTime) := by omega
    have hsat : ¬ (r.count ≥ MAX_REQUESTS) := by omega
    have hstep : checkRateLimit now m ip =
        ({ allowed := true, remaining := MAX_REQUESTS - (r.count + 1) },
         mapSet m ip ⟨r.count + 1, r.resetTime⟩) := by
      simp [checkRateLimit, h, hnow, hsat]
    rw [hstep]
    exact ⟨rfl, mapGet_mapSet_self ..⟩
  · intro ip t₀ rest hrest n hn
    rw [rateSeq_window ip t₀ rest hrest]
    rw [List.getElem?_map, List.getElem?_range hn, Option.map_some']
    exact congrArg Option.some (by rw [decide_eq_decide]; omega)

/-- C5 witness: the first request from a fresh client is allowed with
remaining 4, and the sixth request inside one window is rejected. -/
theorem C5_rate_limiter_contract_w :
    (checkRateLimit 10 [] "203.0.113.7").1 =
      { allowed := true, remaining := MAX_REQUESTS - 1 }
  ∧ (rateSeq "203.0.113.7" [10, 20, 30, 40, 50, 60] []).1[5]? = some false := by
  refine ⟨(C5_rate_limiter_contract.2.1 10 [] "203.0.113.7" rfl).1, ?_⟩
  have h := C5_rate_limiter_contract.2.2.2.2.2 "203.0.113.7" 10 [20, 30, 40, 50, 60]
    (by decide) 5 (by decide)
  rw [h]
  decide

/-- C6, counterexample: a verification response carrying only a single
`top` object labelled `calamansi` at confidence 0.9 (which satisfies
the gate) is nevertheless rejected with a 400 validation error and the
request never proceeds to disease classification: the best-prediction
gate fires on the empty predictions list before the
`predictions?.[0] || top` normalization can run. -/
theorem C6_top_object_rejected_cex :
    exInputTop.model1 =
      .ok { top := some { cls := "calamansi", confidence := 9/10 } }
  ∧ strIncludes (jsToLowerCase "calamansi") "calamansi" = true
  ∧ (1 : ℚ)/2 ≤ 9/10
  ∧ (detectBody exFs exInputTop).model2Called = false
  ∧ (detectBody exFs exInputTop).response.status = 400 := by
  have h1 : detectBody exFs exInputTop =
      gateStage exFs exFile.filepath
        { top := some { cls := "calamansi", confidence := 9/10 } }
        exInputTop.model2 :=
    detectBody_run exFs exInputTop exFile _ rfl (by decide) (by decide) (by decide) rfl
  rw [h1, gateStage_none exFs exFile.filepath
    { top := some { cls := "calamansi", confidence := 9/10 } }
    exInputTop.model2 rfl]
  exact ⟨rfl, by decide, by norm_num, rfl, rfl⟩

/-- C6 (amended): a verification response expressed only as a single
top object (no predictions list) is always rejected with a 400
validation error and the disease model is never called; the
normalization of the top shape is dead code. -/
theorem C6_top_object_rejected (fs : FileSystem) (inp : PipelineInput)
    (f : UploadedFile) (resp1 : RoboflowResponse)
    (hp : inp.parseResult = .ok (some f))
    (hmt : f.mimetype ∈ ALLOWED_TYPES)
    (hsz : f.size ≤ MAX_FILE_SIZE)
    (hcfg : configOk inp.env = true)
    (hm1 : inp.model1 = .ok resp1)
    (hnolist : resp1.predictions = none) :
    (detectBody fs inp).response.status = 400
  ∧ (detectBody fs inp).response.errType = some "validation_error"
  ∧ (detectBody fs inp).model2Called = false := by
  rw [detectBody_run fs inp f resp1 hp hmt hsz hcfg hm1]
  have hb : (sortByConfidenceDesc (resp1.predictions.getD [])).head? = none := by
    rw [hnolist]; rfl
  rw [gateStage_none _ _ _ _ hb]
  exact ⟨rfl, rfl, rfl⟩

/-- C6 witness: the top-only scenario evaluated concretely. -/
theorem C6_top_object_rejected_w :
    (detectBody exFs exInputTop).response.status = 400
  ∧ (detectBody exFs exInputTop).response.errType = some "validation_error"
  ∧ (detectBody exFs exInputTop).model2Called = false :=
  C6_top_object_rejected exFs exInputTop exFile _
    rfl (by decide) (by decide) (by decide) rfl rfl

/-- C7: when the top verification prediction fails the gate, the
handler body returns a 400 validation error, the temp file is absent
from storage afterwards, and the disease-model endpoint is never
called (short-circuit). -/
theorem C7_gate_failure_short_circuit (fs : FileSystem) (inp : PipelineInput)
    (f : UploadedFile) (resp1 : RoboflowResponse) (best : RPrediction)
    (hp : inp.parseResult = .ok (some f))
    (hne : f.filepath ≠ "")
    (hmt : f.mimetype ∈ ALLOWED_TYPES)
    (hsz : f.size ≤ MAX_FILE_SIZE)
    (hcfg : configOk inp.env = true)
    (hm1 : inp.model1 = .ok resp1)
    (hb : (sortByConfidenceDesc (resp1.predictions.getD [])).head? = some best)
    (hfail : ¬ (jsToLowerCase best.cls = "calamansi" ∧ (1 : ℚ)/2 ≤ best.confidence)) :
    (detectBody fs inp).response.status = 400
  ∧ (detectBody fs inp).response.errType = some "validation_error"
  ∧ fsContains (detectBody fs inp).fs f.filepath = false
  ∧ (detectBody fs inp).model2Called = false := by
  have hfail' : jsToLowerCase best.cls ≠ "calamansi" ∨ best.confidence < (1 : ℚ)/2 := by
    rcases not_and_or.mp hfail with h | h
    · exact Or.inl h
    · exact Or.inr (not_le.mp h)
  rw [detectBody_run fs inp f resp1 hp hmt hsz hcfg hm1,
    gateStage_reject _ _ _ _ _ hb hfail']
  exact ⟨rfl, rfl, fsContains_deleteImageFile fs f.filepath hne, rfl⟩

/-- C7 witness: label `tomato` at confidence 0.95 yields 400, deletes
the temp file, and never calls the disease model. -/
theorem C7_gate_failure_short_circuit_w :
    (detectBody exFs exInputTomato).response.status = 400
  ∧ (detectBody exFs exInputTomato).response.errType = some "validation_error"
  ∧ fsContains (detectBody exFs exInputTomato).fs "/tmp/upload-1.png" = false
  ∧ (detectBody exFs exInputTomato).model2Called = false :=
  C7_gate_failure_short_circuit exFs exInputTomato exFile _
    { cls := "tomato", confidence := 19/20 }
    rfl (by decide) (by decide) (by decide) (by decide) rfl rfl
    (fun h => absurd h.1 (by decide))

/-- C8: once the gate passes and the disease model returns a non-empty
prediction list, the response is a 200 whose primary result is the
first prediction exactly as returned (no re-sort), whose confidence is
the percent rounded to nearest, and whose allPredictions is the entire
list in provider order (same length, order preserved by `List.map`). -/
theorem C8_disease_stage_assembly (fs : FileSystem) (inp : PipelineInput)
    (f : UploadedFile) (resp1 : RoboflowResponse) (best : RPrediction)
    (resp2 : RoboflowResponse) (p0 : RPrediction) (ps : List RPrediction)
    (hp : inp.parseResult = .ok (some f))
    (hmt : f.mimetype ∈ ALLOWED_TYPES)
    (hsz : f.size ≤ MAX_FILE_SIZE)
    (hcfg : configOk inp.env = true)
    (hm1 : inp.model1 = .ok resp1)
    (hb : (sortByConfidenceDesc (resp1.predictions.getD [])).head? = some best)
    (hlab : jsToLowerCase best.cls = "calamansi")
    (hconf : (1 : ℚ)/2 ≤ best.confidence)
    (hm2 : inp.model2 = .ok resp2)
    (hpreds : resp2.predictions = some (p0 :: ps)) :
    (detectBody fs inp).response.status = 200
  ∧ (detectBody fs inp).response.payload.map ResponseData.model2Class = some p0.cls
  ∧ (detectBody fs inp).response.payload.map ResponseData.model2Confidence =
      some (jsRound (p0.confidence * 100))
  ∧ (detectBody fs inp).response.payload.map ResponseData.allPredictions =
      some ((p0 :: ps).map (fun pr =>
        { cls := pr.cls, confidence := jsRound (pr.confidence * 100) }))
  ∧ (detectBody fs inp).response.payload.map
      (fun pl => pl.allPredictions.length) = some (p0 :: ps).length := by
  rw [detectBody_run fs inp f resp1 hp hmt hsz hcfg hm1,
    gateStage_pass _ _ _ _ _ hb hlab hconf, hm2,
    classifyStage_ok _ _ _ _ _ p0 ps hpreds]
  refine ⟨rfl, rfl, rfl, rfl, ?_⟩
  simp [List.length_map]

/-- C8 witness: disease predictions black spot 0.81 then healthy
calamansi 0.10 yield primary `black spot` at 81 percent and an
allPredictions list of length 2. -/
theorem C8_disease_stage_assembly_w :
    (detectBody exFs exInputPass).response.status = 200
  ∧ (detectBody exFs exInputPass).response.payload.map
      ResponseData.model2Class = some "black spot"
  ∧ (detectBody exFs exInputPass).response.payload.map
      ResponseData.model2Confidence = some 81
  ∧ (detectBody exFs exInputPass).response.payload.map
      (fun pl => pl.allPredictions.length) = some 2 := by
  have h := C8_disease_stage_assembly exFs exInputPass exFile
    { predictions := some [{ cls := "calamansi", confidence := 23/25 }] }
    { cls := "calamansi", confidence := 23/25 }
    exModel2Resp
    { cls := "black spot", confidence := 81/100,
      x := 320, y := 320, width := 100, height := 100 }
    [{ cls := "healthy calamansi", confidence := 1/10,
       x := 100, y := 100, width := 40, height := 40 }]
    rfl (by decide) (by decide) (by decide) rfl rfl (by decide) (by norm_num)
    rfl rfl
  obtain ⟨h1, h2, h3, _, h5⟩ := h
  refine ⟨h1, h2, ?_, h5⟩
  rw [h3]
  norm_num [jsRound]

/-- C9: for every prediction with geometry, the renderer emits at that
prediction index a rectangle whose top-left corner is the center minus
half the size, scaled per axis by displayed dimension over
model-reported dimension, and whose size is the box size scaled the
same way, in the palette color selected by the index. -/
theorem C9_renderer_geometry (imgWidth imgHeight originalWidth originalHeight : ℚ)
    (preds : List PredOut) (i : ℕ) (p : PredOut) (b : BoundingBox)
    (hp : preds[i]? = some p) (hb : p.boundingBox = some b) :
    (drawImageWithBoundingBoxes imgWidth imgHeight originalWidth originalHeight preds)[i]? =
      some (Except.ok
        { x := (b.x - b.width / 2) * (imgWidth / originalWidth),
          y := (b.y - b.height / 2) * (imgHeight / originalHeight),
          width := b.width * (imgWidth / originalWidth),
          height := b.height * (imgHeight / originalHeight),
          color := (boxColors[i % boxColors.length]?).getD "#00FF00" }) := by
  unfold drawImageWithBoundingBoxes
  rw [drawBoxesAux_getElem, hp, Option.map_some']
  simp [strokeRectFor, hb]

/-- C9 witness: model dimensions 640 by 640, displayed 1280 by 1280, a
prediction centered at (320, 320) sized (100, 100) renders at top-left
(540, 540) with size (200, 200). -/
theorem C9_renderer_geometry_w :
    (drawImageWithBoundingBoxes 1280 1280 640 640 [exRenderPred])[0]? =
      some (Except.ok
        { x := 540, y := 540, width := 200, height := 200, color := "#00FF00" }) := by
  rw [C9_renderer_geometry 1280 1280 640 640 [exRenderPred] 0 exRenderPred
    { x := 320, y := 320, width := 100, height := 100 } rfl rfl]
  norm_num [boxColors]

/-- C10 (implicit): every element of allPredictions in a 200 payload
carries exactly the label and the rounded percent confidence; geometry
is dropped (boundingBox is absent on each element, so the multi-box
renderer, which reads boundingBox, fails on such an element), while the
primary result keeps the bounding box of the first disease
prediction. -/
theorem C10_allPredictions_shape (fs : FileSystem) (inp : PipelineInput)
    (f : UploadedFile) (resp1 : RoboflowResponse) (best : RPrediction)
    (resp2 : RoboflowResponse) (p0 : RPrediction) (ps : List RPrediction)
    (hp : inp.parseResult = .ok (some f))
    (hmt : f.mimetype ∈ ALLOWED_TYPES)
    (hsz : f.size ≤ MAX_FILE_SIZE)
    (hcfg : configOk inp.env = true)
    (hm1 : inp.model1 = .ok resp1)
    (hb : (sortByConfidenceDesc (resp1.predictions.getD [])).head? = some best)
    (hlab : jsToLowerCase best.cls = "calamansi")
    (hconf : (1 : ℚ)/2 ≤ best.confidence)
    (hm2 : inp.model2 = .ok resp2)
    (hpreds : resp2.predictions = some (p0 :: ps)) :
    ∀ pl, (detectBody fs inp).response.payload = some pl →
      pl.allPredictions = (p0 :: ps).map (fun pr =>
        { cls := pr.cls, confidence := jsRound (pr.confidence * 100),
          boundingBox := none })
    ∧ (∀ e ∈ pl.allPredictions, e.boundingBox = none
        ∧ ∀ (sx sy : ℚ) (i : ℕ), strokeRectFor sx sy i e =
            Except.error "TypeError: boundingBox is undefined")
    ∧ pl.model2BoundingBox =
        { x := p0.x, y := p0.y, width := p0.width, height := p0.height } := by
  rw [detectBody_run fs inp f resp1 hp hmt hsz hcfg hm1,
    gateStage_pass _ _ _ _ _ hb hlab hconf, hm2,
    classifyStage_ok _ _ _ _ _ p0 ps hpreds]
  intro pl hpl
  simp only [Option.some.injEq] at hpl
  subst hpl
  refine ⟨rfl, ?_, rfl⟩
  intro e he
  simp only [List.mem_map] at he
  obtain ⟨pr, _, hpr⟩ := he
  subst hpr
  exact ⟨rfl, fun sx sy i => rfl⟩

/-- C10 witness: the successful scenario payload has two allPredictions
entries, none of which carries geometry, while the primary keeps the
box of the first disease prediction. -/
theorem C10_allPredictions_shape_w :
    ∃ pl, (detectBody exFs exInputPass).response.payload = some pl
      ∧ (∀ e ∈ pl.allPredictions, e.boundingBox = none)
      ∧ pl.model2BoundingBox =
          { x := 320, y := 320, width := 100, height := 100 } := by
  have hchain : detectBody exFs exInputPass =
      classifyStage exFs exFile.filepath (some "calamansi")
        (jsRound ((23 : ℚ)/25 * 100)) (.ok exModel2Resp) := by
    rw [detectBody_run exFs exInputPass exFile _ rfl (by decide) (by decide)
      (by decide) rfl]
    exact gateStage_pass exFs exFile.filepath _ (.ok exModel2Resp)
      { cls := "calamansi", confidence := 23/25 } rfl (by decide) (by norm_num)
  obtain ⟨pl, hpl⟩ :
      ∃ pl, (detectBody exFs exInputPass).response.payload = some pl := by
    rw [hchain, classifyStage_ok _ _ _ _ exModel2Resp _ _ rfl]
    exact ⟨_, rfl⟩
  have h := C10_allPredictions_shape exFs exInputPass exFile
    { predictions := some [{ cls := "calamansi", confidence := 23/25 }] }
    { cls := "calamansi", confidence := 23/25 }
    exModel2Resp
    { cls := "black spot", confidence := 81/100,
      x := 320, y := 320, width := 100, height := 100 }
    [{ cls := "healthy calamansi", confidence := 1/10,
       x := 100, y := 100, width := 40, height := 40 }]
    rfl (by decide) (by decide) (by decide) rfl rfl (by decide) (by norm_num)
    rfl rfl pl hpl
  exact ⟨pl, hpl, fun e he => (h.2.1 e he).1, h.2.2⟩

end CaliAI
